import Mathlib

/-!
Verification of the NodeWarden rate-limiting subsystem
(`src/services/ratelimit.ts`) against its design specification.

The D1 store is modelled as explicit finite maps: the `login_attempts_ip`
table as a function `String → Option LoginRow`, and the `api_rate_limits`
table as a function `String × Nat → Option Nat` (keyed by identifier and
window start, holding the count).  Each service method becomes a pure Lean
function from table state (and the current time in milliseconds) to a
result/state pair.  JavaScript truthiness checks on `locked_until` and on
header strings are modelled explicitly (`0` and `""` are falsy).
-/

namespace NodeWarden

/-- Rate limit configuration (the `CONFIG` object in `ratelimit.ts`). -/
def LOGIN_MAX_ATTEMPTS : Nat := 5

def LOGIN_LOCKOUT_MINUTES : Nat := 2

def API_WRITE_REQUESTS_PER_MINUTE : Nat := 120

def API_WINDOW_SECONDS : Nat := 60

/-- Model of JavaScript string trim on the character list: whitespace is
stripped from both ends. -/
def trimChars (l : List Char) : List Char :=
  ((l.dropWhile Char.isWhitespace).reverse.dropWhile Char.isWhitespace).reverse

/-- Model of `String.prototype.trim`. -/
def jsTrim (s : String) : String :=
  String.mk (trimChars s.toList)

/-- The key computation `ip.trim() || 'unknown'` shared by the three
login-guard operations: the empty string is falsy in JavaScript, so a
whitespace-only `ip` falls back to the sentinel. -/
def keyOf (ip : String) : String :=
  let t := jsTrim ip
  if t = "" then "unknown" else t

/-- A row of the `login_attempts_ip` table.  `locked_until` is a nullable
INTEGER column (milliseconds since epoch). -/
structure LoginRow where
  attempts : Nat
  locked_until : Option Nat
  updated_at : Nat
deriving DecidableEq, Repr

/-- The `login_attempts_ip` table, keyed by ip. -/
def LoginTable : Type := String → Option LoginRow

/-- The `api_rate_limits` table, keyed by `(identifier, window_start)`,
holding `count`. -/
def ApiTable : Type := String × Nat → Option Nat

/-- Result of `checkLoginAttempt`. -/
structure CheckResult where
  allowed : Bool
  remainingAttempts : Nat
  retryAfterSeconds : Option Nat
deriving DecidableEq, Repr

/-- Result of `recordFailedLogin`. -/
structure RecordResult where
  locked : Bool
  retryAfterSeconds : Option Nat
deriving DecidableEq, Repr

/-- Result of `consumeApiWriteBudget`. -/
structure ConsumeResult where
  allowed : Bool
  remaining : Nat
  retryAfterSeconds : Option Nat
deriving DecidableEq, Repr

/-- `checkLoginAttempt(ip)`: reads the row for the normalized key.  No row
means OPEN with full budget.  A truthy `locked_until` in the future means
LOCKED with `retryAfterSeconds = ceil((locked_until - now)/1000)`.  A truthy
`locked_until` at or before `now` deletes the row (lazy reset).  Otherwise
OPEN with `max(0, MAX - attempts)` remaining.  Returns the result and the
(possibly updated) table. -/
def checkLoginAttempt (t : LoginTable) (ip : String) (now : Nat) :
    CheckResult × LoginTable :=
  let key := keyOf ip
  match t key with
  | none =>
      ({ allowed := true, remainingAttempts := LOGIN_MAX_ATTEMPTS,
         retryAfterSeconds := none }, t)
  | some row =>
      match row.locked_until with
      | some lu =>
          if lu ≠ 0 ∧ now < lu then
            ({ allowed := false, remainingAttempts := 0,
               retryAfterSeconds := some ((lu - now + 999) / 1000) }, t)
          else if lu ≠ 0 ∧ lu ≤ now then
            ({ allowed := true, remainingAttempts := LOGIN_MAX_ATTEMPTS,
               retryAfterSeconds := none },
             fun k => if k = key then none else t k)
          else
            ({ allowed := true,
               remainingAttempts := LOGIN_MAX_ATTEMPTS - row.attempts,
               retryAfterSeconds := none }, t)
      | none =>
          ({ allowed := true,
             remainingAttempts := LOGIN_MAX_ATTEMPTS - row.attempts,
             retryAfterSeconds := none }, t)

/-- The row stored at the normalized key by the atomic UPSERT in
`recordFailedLogin`: insert at `attempts = 1`, or increment `attempts` on
the existing row, updating `updated_at` and leaving `locked_until`
unchanged. -/
def upsertRow (t : LoginTable) (ip : String) (now : Nat) : LoginRow :=
  match t (keyOf ip) with
  | none => { attempts := 1, locked_until := none, updated_at := now }
  | some row => { row with attempts := row.attempts + 1, updated_at := now }

/-- `recordFailedLogin(ip)`: one atomic UPSERT inserts `attempts = 1` or
increments the existing row (leaving `locked_until` untouched), then the
resulting `attempts` is read back (`row?.attempts || 1`); at or above the
threshold, `locked_until` is set to `now + LOCKOUT` and the call reports
locked. -/
def recordFailedLogin (t : LoginTable) (ip : String) (now : Nat) :
    RecordResult × LoginTable :=
  let key := keyOf ip
  let t1 : LoginTable := fun k =>
    if k = key then some (upsertRow t ip now) else t k
  let attempts : Nat :=
    match t1 key with
    | some r => if r.attempts = 0 then 1 else r.attempts
    | none => 1
  if LOGIN_MAX_ATTEMPTS ≤ attempts then
    let lockedUntil := now + LOGIN_LOCKOUT_MINUTES * 60 * 1000
    let t2 : LoginTable := fun k =>
      if k = key then
        match t1 k with
        | some r => some { r with locked_until := some lockedUntil, updated_at := now }
        | none => none
      else t1 k
    ({ locked := true, retryAfterSeconds := some (LOGIN_LOCKOUT_MINUTES * 60) }, t2)
  else
    ({ locked := false, retryAfterSeconds := none }, t1)

/-- `clearLoginAttempts(ip)`: unconditionally deletes the row for the
normalized key. -/
def clearLoginAttempts (t : LoginTable) (ip : String) : LoginTable :=
  fun k => if k = keyOf ip then none else t k

/-- `Math.floor(Date.now() / 1000)`. -/
def nowSecOf (nowMs : Nat) : Nat := nowMs / 1000

/-- `windowStart = nowSec - (nowSec % API_WINDOW_SECONDS)`. -/
def windowStartOf (nowMs : Nat) : Nat :=
  nowSecOf nowMs - nowSecOf nowMs % API_WINDOW_SECONDS

/-- `windowEnd = windowStart + API_WINDOW_SECONDS`. -/
def windowEndOf (nowMs : Nat) : Nat :=
  windowStartOf nowMs + API_WINDOW_SECONDS

/-- `consumeApiWriteBudget(identifier)`: one conditional UPSERT with
RETURNING — insert `count = 1`, or increment only while the stored count is
strictly below the limit; when the WHERE clause blocks the increment no row
is returned and the call is rejected with the seconds left in the window. -/
def consumeApiWriteBudget (a : ApiTable) (identifier : String) (nowMs : Nat) :
    ConsumeResult × ApiTable :=
  let windowStart := windowStartOf nowMs
  match a (identifier, windowStart) with
  | none =>
      let a2 : ApiTable := fun k =>
        if k = (identifier, windowStart) then some 1 else a k
      ({ allowed := true, remaining := API_WRITE_REQUESTS_PER_MINUTE - 1,
         retryAfterSeconds := none }, a2)
  | some c =>
      if c < API_WRITE_REQUESTS_PER_MINUTE then
        let a2 : ApiTable := fun k =>
          if k = (identifier, windowStart) then some (c + 1) else a k
        ({ allowed := true, remaining := API_WRITE_REQUESTS_PER_MINUTE - (c + 1),
           retryAfterSeconds := none }, a2)
      else
        ({ allowed := false, remaining := 0,
           retryAfterSeconds := some (windowEndOf nowMs - nowSecOf nowMs) }, a)

/-- The first comma-separated field: `s.split(',')[0]`. -/
def firstCommaField (s : String) : String :=
  String.mk (s.toList.takeWhile (fun c => !(c = ',')))

/-- `getClientIdentifier(request)`: the `CF-Connecting-IP` header when
truthy; else the first comma-separated entry of `X-Forwarded-For`, trimmed,
when that header is truthy; else `"unknown"`.  Headers are modelled as
`Option String` (`none` = header absent). -/
def getClientIdentifier (cfIp forwardedFor : Option String) : String :=
  match cfIp with
  | some s =>
      if s = "" then
        match forwardedFor with
        | some f => if f = "" then "unknown" else jsTrim (firstCommaField f)
        | none => "unknown"
      else s
  | none =>
      match forwardedFor with
      | some f => if f = "" then "unknown" else jsTrim (firstCommaField f)
      | none => "unknown"

/-! ### Properties of the trim model -/

theorem dropWhile_head?_false {α : Type} (p : α → Bool) (l : List α) (a : α)
    (h : (l.dropWhile p).head? = some a) : p a = false := by
  have hm := List.head?_dropWhile_not p l
  rw [h] at hm
  exact hm

theorem dropWhile_self_of_head? {α : Type} (p : α → Bool) (l : List α)
    (h : ∀ a, l.head? = some a → p a = false) : l.dropWhile p = l := by
  cases l with
  | nil => rfl
  | cons a t =>
      exact List.dropWhile_cons_of_neg (by simp [h a rfl])

theorem dropWhile_dropWhile {α : Type} (p : α → Bool) (l : List α) :
    (l.dropWhile p).dropWhile p = l.dropWhile p := by
  apply dropWhile_self_of_head?
  intro a ha
  exact dropWhile_head?_false p l a ha

theorem getLast?_dropWhile {α : Type} (p : α → Bool) (l : List α)
    (h : l.dropWhile p ≠ []) : (l.dropWhile p).getLast? = l.getLast? := by
  induction l with
  | nil => simp [List.dropWhile] at h
  | cons a t ih =>
      by_cases hp : p a
      · rw [List.dropWhile_cons_of_pos hp] at h ⊢
        rw [ih h]
        cases t with
        | nil => rw [List.dropWhile_nil] at h; exact absurd rfl h
        | cons b t2 => rw [List.getLast?_cons_cons]
      · rw [List.dropWhile_cons_of_neg hp]

theorem trimChars_head?_false (l : List Char) (a : Char)
    (h : (trimChars l).head? = some a) : Char.isWhitespace a = false := by
  unfold trimChars at h
  rw [List.head?_reverse] at h
  have hne : (l.dropWhile Char.isWhitespace).reverse.dropWhile Char.isWhitespace ≠ [] := by
    intro he
    rw [he] at h
    simp at h
  rw [getLast?_dropWhile _ _ hne, List.getLast?_reverse] at h
  exact dropWhile_head?_false _ l a h

theorem trimChars_idem (l : List Char) : trimChars (trimChars l) = trimChars l := by
  have h1 : (trimChars l).dropWhile Char.isWhitespace = trimChars l :=
    dropWhile_self_of_head? _ _ (trimChars_head?_false l)
  show ((((trimChars l).dropWhile Char.isWhitespace).reverse.dropWhile
      Char.isWhitespace)).reverse = trimChars l
  rw [h1]
  unfold trimChars
  rw [List.reverse_reverse, dropWhile_dropWhile]

theorem jsTrim_idem (s : String) : jsTrim (jsTrim s) = jsTrim s := by
  unfold jsTrim
  have : (String.mk (trimChars s.toList)).toList = trimChars s.toList := rfl
  rw [this, trimChars_idem]

theorem keyOf_jsTrim (ip : String) : keyOf (jsTrim ip) = keyOf ip := by
  unfold keyOf
  rw [jsTrim_idem]

theorem keyOf_of_blank (ip : String) (h : jsTrim ip = "") : keyOf ip = "unknown" := by
  unfold keyOf
  rw [h]
  rfl

theorem checkLoginAttempt_key_congr (t : LoginTable) (ip1 ip2 : String) (now : Nat)
    (h : keyOf ip1 = keyOf ip2) :
    checkLoginAttempt t ip1 now = checkLoginAttempt t ip2 now := by
  unfold checkLoginAttempt
  dsimp only
  rw [h]

theorem upsertRow_key_congr (t : LoginTable) (ip1 ip2 : String) (now : Nat)
    (h : keyOf ip1 = keyOf ip2) :
    upsertRow t ip1 now = upsertRow t ip2 now := by
  unfold upsertRow
  rw [h]

theorem recordFailedLogin_key_congr (t : LoginTable) (ip1 ip2 : String) (now : Nat)
    (h : keyOf ip1 = keyOf ip2) :
    recordFailedLogin t ip1 now = recordFailedLogin t ip2 now := by
  unfold recordFailedLogin
  rw [h, upsertRow_key_congr t ip1 ip2 now h]

theorem clearLoginAttempts_key_congr (t : LoginTable) (ip1 ip2 : String)
    (h : keyOf ip1 = keyOf ip2) :
    clearLoginAttempts t ip1 = clearLoginAttempts t ip2 := by
  unfold clearLoginAttempts
  rw [h]

/-! ### Write budget limiter: step lemmas and iteration -/

/-- The count stored at the touched key after one `consumeApiWriteBudget`
step, as a function of the previous value. -/
def nextWindowCount : Option Nat → Nat
  | none => 1
  | some c => if c < API_WRITE_REQUESTS_PER_MINUTE then c + 1 else c

theorem consumeApiWriteBudget_update (a : ApiTable) (id : String) (now : Nat) :
    (consumeApiWriteBudget a id now).2 = fun k =>
      if k = (id, windowStartOf now) then
        some (nextWindowCount (a (id, windowStartOf now)))
      else a k := by
  funext k
  unfold consumeApiWriteBudget nextWindowCount
  cases h : a (id, windowStartOf now) with
  | none => simp [h]
  | some c =>
      by_cases hc : c < API_WRITE_REQUESTS_PER_MINUTE
      · simp [h, hc]
      · simp only [h, hc, if_false]
        by_cases hk : k = (id, windowStartOf now)
        · rw [if_pos hk, hk, h]
        · rw [if_neg hk]

theorem consumeApiWriteBudget_result (a : ApiTable) (id : String) (now : Nat) :
    (consumeApiWriteBudget a id now).1 =
      match a (id, windowStartOf now) with
      | none =>
          { allowed := true, remaining := API_WRITE_REQUESTS_PER_MINUTE - 1,
            retryAfterSeconds := none }
      | some c =>
          if c < API_WRITE_REQUESTS_PER_MINUTE then
            { allowed := true, remaining := API_WRITE_REQUESTS_PER_MINUTE - (c + 1),
              retryAfterSeconds := none }
          else
            { allowed := false, remaining := 0,
              retryAfterSeconds := some (windowEndOf now - nowSecOf now) } := by
  unfold consumeApiWriteBudget
  cases h : a (id, windowStartOf now) with
  | none => simp [h]
  | some c =>
      by_cases hc : c < API_WRITE_REQUESTS_PER_MINUTE
      · simp [h, hc]
      · simp [h, hc]

/-- The table after `n` sequential `consumeApiWriteBudget` calls for one
identifier, call `i` made at time `nows i`. -/
def consumeIter (id : String) (nows : Nat → Nat) (a : ApiTable) : Nat → ApiTable
  | 0 => a
  | n + 1 => (consumeApiWriteBudget (consumeIter id nows a n) id (nows n)).2

/-- The result of the `(n+1)`-st sequential `consumeApiWriteBudget` call. -/
def consumeResultAt (id : String) (nows : Nat → Nat) (a : ApiTable) (n : Nat) :
    ConsumeResult :=
  (consumeApiWriteBudget (consumeIter id nows a n) id (nows n)).1

/-- How many of the first `n` sequential calls were accepted. -/
def acceptedCount (id : String) (nows : Nat → Nat) (a : ApiTable) : Nat → Nat
  | 0 => 0
  | n + 1 =>
      acceptedCount id nows a n +
        (if (consumeResultAt id nows a n).allowed then 1 else 0)

theorem consumeIter_lookup_some (id : String) (nows : Nat → Nat) (a : ApiTable)
    (w c : Nat) (hw : ∀ i, windowStartOf (nows i) = w) (hc : a (id, w) = some c)
    (hcle : c ≤ API_WRITE_REQUESTS_PER_MINUTE) :
    ∀ n, consumeIter id nows a n (id, w) =
      some (min API_WRITE_REQUESTS_PER_MINUTE (c + n)) := by
  intro n
  induction n with
  | zero =>
      show a (id, w) = _
      rw [hc]
      congr 1
      omega
  | succ n ih =>
      show (consumeApiWriteBudget (consumeIter id nows a n) id (nows n)).2 (id, w) = _
      rw [consumeApiWriteBudget_update]
      simp only [hw n, if_true]
      rw [ih]
      unfold nextWindowCount
      congr 1
      simp only [API_WRITE_REQUESTS_PER_MINUTE]
      split <;> omega

theorem consumeResultAt_allowed (id : String) (nows : Nat → Nat) (a : ApiTable)
    (w c : Nat) (hw : ∀ i, windowStartOf (nows i) = w) (hc : a (id, w) = some c)
    (hcle : c ≤ API_WRITE_REQUESTS_PER_MINUTE) :
    ∀ n, (consumeResultAt id nows a n).allowed =
      decide (c + n < API_WRITE_REQUESTS_PER_MINUTE) := by
  intro n
  unfold consumeResultAt
  rw [consumeApiWriteBudget_result, hw n,
    consumeIter_lookup_some id nows a w c hw hc hcle n]
  simp only
  by_cases h : c + n < API_WRITE_REQUESTS_PER_MINUTE
  · rw [if_pos (by simp only [API_WRITE_REQUESTS_PER_MINUTE] at *; omega)]
    simp [h]
  · rw [if_neg (by simp only [API_WRITE_REQUESTS_PER_MINUTE] at *; omega)]
    simp [h]

theorem acceptedCount_eq (id : String) (nows : Nat → Nat) (a : ApiTable)
    (w c : Nat) (hw : ∀ i, windowStartOf (nows i) = w) (hc : a (id, w) = some c)
    (hcle : c ≤ API_WRITE_REQUESTS_PER_MINUTE) :
    ∀ M, acceptedCount id nows a M = min M (API_WRITE_REQUESTS_PER_MINUTE - c) := by
  intro M
  induction M with
  | zero => simp [acceptedCount]
  | succ n ih =>
      unfold acceptedCount
      rw [ih, consumeResultAt_allowed id nows a w c hw hc hcle n]
      by_cases h : c + n < API_WRITE_REQUESTS_PER_MINUTE
      · rw [if_pos (by simpa using h)]
        simp only [API_WRITE_REQUESTS_PER_MINUTE] at *
        omega
      · rw [if_neg (by simpa using h)]
        simp only [API_WRITE_REQUESTS_PER_MINUTE] at *
        omega

theorem consumeIter_lookup_fresh (id : String) (nows : Nat → Nat) (a : ApiTable)
    (w : Nat) (hw : ∀ i, windowStartOf (nows i) = w) (h0 : a (id, w) = none) :
    ∀ n, consumeIter id nows a n (id, w) =
      if n = 0 then none else some (min API_WRITE_REQUESTS_PER_MINUTE n) := by
  intro n
  induction n with
  | zero => exact h0
  | succ n ih =>
      show (consumeApiWriteBudget (consumeIter id nows a n) id (nows n)).2 (id, w) = _
      rw [consumeApiWriteBudget_update]
      simp only [hw n, if_true]
      rw [ih]
      by_cases hn : n = 0
      · subst hn
        simp [nextWindowCount, API_WRITE_REQUESTS_PER_MINUTE]
      · rw [if_neg hn, if_neg (Nat.succ_ne_zero n)]
        unfold nextWindowCount
        congr 1
        simp only [API_WRITE_REQUESTS_PER_MINUTE]
        split <;> omega

/-- The set of `api_rate_limits` states reachable from the empty table by
`consumeApiWriteBudget` calls. -/
inductive ApiReachable : ApiTable → Prop
  | empty : ApiReachable (fun _ => none)
  | step (a : ApiTable) (id : String) (now : Nat) (h : ApiReachable a) :
      ApiReachable (consumeApiWriteBudget a id now).2

/-! ### Login attempt guard: step lemmas and iteration -/

theorem upsertRow_attempts_pos (t : LoginTable) (ip : String) (now : Nat) :
    0 < (upsertRow t ip now).attempts := by
  unfold upsertRow
  cases t (keyOf ip) <;> simp

theorem recordFailedLogin_result (t : LoginTable) (ip : String) (now : Nat) :
    (recordFailedLogin t ip now).1 =
      if LOGIN_MAX_ATTEMPTS ≤ (upsertRow t ip now).attempts then
        { locked := true, retryAfterSeconds := some (LOGIN_LOCKOUT_MINUTES * 60) }
      else
        { locked := false, retryAfterSeconds := none } := by
  have hpos := upsertRow_attempts_pos t ip now
  unfold recordFailedLogin
  simp only [eq_self_iff_true, if_true]
  rw [if_neg (show ¬ (upsertRow t ip now).attempts = 0 by omega)]
  split <;> rfl

theorem recordFailedLogin_lookup (t : LoginTable) (ip : String) (now : Nat) :
    (recordFailedLogin t ip now).2 (keyOf ip) =
      some (if LOGIN_MAX_ATTEMPTS ≤ (upsertRow t ip now).attempts then
        { attempts := (upsertRow t ip now).attempts,
          locked_until := some (now + LOGIN_LOCKOUT_MINUTES * 60 * 1000),
          updated_at := now }
      else upsertRow t ip now) := by
  have hpos := upsertRow_attempts_pos t ip now
  unfold recordFailedLogin
  simp only [eq_self_iff_true, if_true]
  rw [if_neg (show ¬ (upsertRow t ip now).attempts = 0 by omega)]
  split <;> simp

theorem recordFailedLogin_lookup_ne (t : LoginTable) (ip : String) (now : Nat)
    (k : String) (hk : k ≠ keyOf ip) :
    (recordFailedLogin t ip now).2 k = t k := by
  have hpos := upsertRow_attempts_pos t ip now
  unfold recordFailedLogin
  simp only [eq_self_iff_true, if_true]
  rw [if_neg (show ¬ (upsertRow t ip now).attempts = 0 by omega)]
  split <;> simp [hk]

theorem checkLoginAttempt_no_record (t : LoginTable) (ip : String) (now : Nat)
    (h : t (keyOf ip) = none) :
    checkLoginAttempt t ip now =
      ({ allowed := true, remainingAttempts := LOGIN_MAX_ATTEMPTS,
         retryAfterSeconds := none }, t) := by
  unfold checkLoginAttempt
  dsimp only
  rw [h]

theorem checkLoginAttempt_no_lock (t : LoginTable) (ip : String) (now : Nat)
    (row : LoginRow) (h : t (keyOf ip) = some row) (hl : row.locked_until = none) :
    checkLoginAttempt t ip now =
      ({ allowed := true, remainingAttempts := LOGIN_MAX_ATTEMPTS - row.attempts,
         retryAfterSeconds := none }, t) := by
  unfold checkLoginAttempt
  dsimp only
  rw [h]
  dsimp only
  rw [hl]

theorem checkLoginAttempt_active_lock (t : LoginTable) (ip : String) (now : Nat)
    (row : LoginRow) (lu : Nat) (h : t (keyOf ip) = some row)
    (hlu : row.locked_until = some lu) (h0 : lu ≠ 0) (hact : now < lu) :
    checkLoginAttempt t ip now =
      ({ allowed := false, remainingAttempts := 0,
         retryAfterSeconds := some ((lu - now + 999) / 1000) }, t) := by
  unfold checkLoginAttempt
  dsimp only
  rw [h]
  dsimp only
  rw [hlu]
  dsimp only
  rw [if_pos ⟨h0, hact⟩]

theorem checkLoginAttempt_expired_lock (t : LoginTable) (ip : String) (now : Nat)
    (row : LoginRow) (lu : Nat) (h : t (keyOf ip) = some row)
    (hlu : row.locked_until = some lu) (h0 : lu ≠ 0) (hexp : lu ≤ now) :
    checkLoginAttempt t ip now =
      ({ allowed := true, remainingAttempts := LOGIN_MAX_ATTEMPTS,
         retryAfterSeconds := none },
       fun k => if k = keyOf ip then none else t k) := by
  unfold checkLoginAttempt
  dsimp only
  rw [h]
  dsimp only
  rw [hlu]
  dsimp only
  rw [if_neg (by omega), if_pos ⟨h0, hexp⟩]

/-- The table after `n` sequential `recordFailedLogin` calls for one ip,
call `i` made at time `nows i`. -/
def recordIter (ip : String) (nows : Nat → Nat) (t : LoginTable) : Nat → LoginTable
  | 0 => t
  | n + 1 => (recordFailedLogin (recordIter ip nows t n) ip (nows n)).2

/-- The result of the `(n+1)`-st sequential `recordFailedLogin` call. -/
def recordResultAt (ip : String) (nows : Nat → Nat) (t : LoginTable) (n : Nat) :
    RecordResult :=
  (recordFailedLogin (recordIter ip nows t n) ip (nows n)).1

theorem recordIter_fresh (ip : String) (nows : Nat → Nat) (t : LoginTable)
    (h : t (keyOf ip) = none) :
    ∀ n, n ≤ 4 → recordIter ip nows t n (keyOf ip) =
      if n = 0 then none
      else some { attempts := n, locked_until := none, updated_at := nows (n - 1) } := by
  intro n
  induction n with
  | zero => intro _; simpa using h
  | succ n ih =>
      intro hn
      have hiter := ih (by omega)
      show (recordFailedLogin (recordIter ip nows t n) ip (nows n)).2 (keyOf ip) = _
      have hup : upsertRow (recordIter ip nows t n) ip (nows n) =
          { attempts := n + 1, locked_until := none, updated_at := nows n } := by
        unfold upsertRow
        rw [hiter]
        by_cases h0 : n = 0
        · subst h0
          rfl
        · rw [if_neg h0]
      rw [recordFailedLogin_lookup, hup,
        if_neg (show ¬ LOGIN_MAX_ATTEMPTS ≤
          ({ attempts := n + 1, locked_until := none,
             updated_at := nows n } : LoginRow).attempts by
          simp only [LOGIN_MAX_ATTEMPTS]
          omega),
        if_neg (Nat.succ_ne_zero n)]
      simp

theorem recordResultAt_fresh (ip : String) (nows : Nat → Nat) (t : LoginTable)
    (h : t (keyOf ip) = none) (n : Nat) (hn : n ≤ 3) :
    recordResultAt ip nows t n = { locked := false, retryAfterSeconds := none } := by
  unfold recordResultAt
  have hup : upsertRow (recordIter ip nows t n) ip (nows n) =
      { attempts := n + 1, locked_until := none, updated_at := nows n } := by
    unfold upsertRow
    rw [recordIter_fresh ip nows t h n (by omega)]
    by_cases h0 : n = 0
    · subst h0
      rfl
    · rw [if_neg h0]
  rw [recordFailedLogin_result, hup,
    if_neg (show ¬ LOGIN_MAX_ATTEMPTS ≤
      ({ attempts := n + 1, locked_until := none,
         updated_at := nows n } : LoginRow).attempts by
      simp only [LOGIN_MAX_ATTEMPTS]
      omega)]

/-! ### Claims -/

/-- Claim C1: in every reachable state of the `api_rate_limits` table, the
stored count of every `(identifier, windowStart)` row is at most the
configured limit of 120, and every `consumeApiWriteBudget` call preserves
this bound (the conditional upsert increments only strictly below the
limit). -/
theorem api_write_budget_invariant (a : ApiTable) (h : ApiReachable a) :
    ∀ id w c, a (id, w) = some c → c ≤ API_WRITE_REQUESTS_PER_MINUTE := by
  induction h with
  | empty =>
      intro id w c hc
      exact absurd hc (by simp)
  | step a2 id2 now2 h2 ih =>
      intro id w c hc
      rw [consumeApiWriteBudget_update] at hc
      simp only at hc
      by_cases he : (id, w) = (id2, windowStartOf now2)
      · rw [if_pos he] at hc
        have hcv : c = nextWindowCount (a2 (id2, windowStartOf now2)) :=
          (Option.some.injEq _ _).mp hc.symm
        unfold nextWindowCount at hcv
        cases hX : a2 (id2, windowStartOf now2) with
        | none =>
            rw [hX] at hcv
            dsimp only at hcv
            simp only [API_WRITE_REQUESTS_PER_MINUTE]
            omega
        | some c0 =>
            have hc0 := ih id2 (windowStartOf now2) c0 hX
            rw [hX] at hcv
            dsimp only at hcv
            simp only [API_WRITE_REQUESTS_PER_MINUTE] at *
            split at hcv <;> omega
      · rw [if_neg he] at hc
        exact ih id w c hc

/-- Witness for C1: the table reached by one call from empty stores count 1
at the touched key, and the invariant theorem applies to it. -/
theorem api_write_budget_invariant_witness :
    (1 : Nat) ≤ API_WRITE_REQUESTS_PER_MINUTE :=
  api_write_budget_invariant ((consumeApiWriteBudget (fun _ => none) "x" 0).2)
    (ApiReachable.step (fun _ => none) "x" 0 ApiReachable.empty)
    "x" 0 1 (by decide)

/-- Claim C2: `M` concurrent `consumeApiWriteBudget` calls for one
identifier in one window, serialized in any order as `M` atomic conditional
upserts starting from stored count `c ≤ 120`, accept exactly
`min M (120 - c)` calls (precisely the calls made while the count is still
below the limit; the rest are rejected), and leave the stored count at
exactly `min 120 (c + M)`. -/
theorem consumeApiWriteBudget_atomicity (a : ApiTable) (id : String)
    (nows : Nat → Nat) (w c M : Nat) (hw : ∀ i, windowStartOf (nows i) = w)
    (hc : a (id, w) = some c) (hcle : c ≤ API_WRITE_REQUESTS_PER_MINUTE) :
    acceptedCount id nows a M = min M (API_WRITE_REQUESTS_PER_MINUTE - c) ∧
    consumeIter id nows a M (id, w) =
      some (min API_WRITE_REQUESTS_PER_MINUTE (c + M)) ∧
    (∀ i, (consumeResultAt id nows a i).allowed =
      decide (c + i < API_WRITE_REQUESTS_PER_MINUTE)) :=
  ⟨acceptedCount_eq id nows a w c hw hc hcle M,
   consumeIter_lookup_some id nows a w c hw hc hcle M,
   fun i => consumeResultAt_allowed id nows a w c hw hc hcle i⟩

/-- Witness for C2: three calls starting from count 118 accept exactly two
and leave the count at 120. -/
theorem consumeApiWriteBudget_atomicity_witness :
    acceptedCount "x" (fun _ => 0) (fun k => if k = ("x", 0) then some 118 else none) 3 =
      min 3 (API_WRITE_REQUESTS_PER_MINUTE - 118) ∧
    consumeIter "x" (fun _ => 0) (fun k => if k = ("x", 0) then some 118 else none) 3 ("x", 0) =
      some (min API_WRITE_REQUESTS_PER_MINUTE (118 + 3)) ∧
    (∀ i, (consumeResultAt "x" (fun _ => 0)
        (fun k => if k = ("x", 0) then some 118 else none) i).allowed =
      decide (118 + i < API_WRITE_REQUESTS_PER_MINUTE)) :=
  consumeApiWriteBudget_atomicity (fun k => if k = ("x", 0) then some 118 else none)
    "x" (fun _ => 0) 0 118 3 (fun _ => by simp [windowStartOf, nowSecOf])
    (by decide) (by decide)

/-- Claim C4: in a fresh window, `consumeApiWriteBudget` accepts exactly the
first 120 sequential calls for one identifier, with `remaining` equal to
`119 - k` on call `k+1` (strictly decreasing from 119 to 0), and rejects
call 121 with `remaining = 0` and `retryAfterSeconds = windowStart +
API_WINDOW_SECONDS - nowSec`. -/
theorem consumeApiWriteBudget_fresh_window (a : ApiTable) (id : String)
    (now k : Nat) (h0 : a (id, windowStartOf now) = none)
    (hk : k < API_WRITE_REQUESTS_PER_MINUTE) :
    consumeResultAt id (fun _ => now) a k =
      { allowed := true, remaining := 119 - k, retryAfterSeconds := none } ∧
    consumeResultAt id (fun _ => now) a 120 =
      { allowed := false, remaining := 0,
        retryAfterSeconds :=
          some (windowStartOf now + API_WINDOW_SECONDS - nowSecOf now) } := by
  have hw : ∀ i : Nat, windowStartOf ((fun _ => now) i) = windowStartOf now :=
    fun _ => rfl
  have hfresh := consumeIter_lookup_fresh id (fun _ => now) a (windowStartOf now) hw h0
  constructor
  · unfold consumeResultAt
    rw [consumeApiWriteBudget_result]
    by_cases hz : k = 0
    · subst hz
      rw [hfresh 0, if_pos rfl]
      rfl
    · rw [hfresh k, if_neg hz]
      have hmin : min API_WRITE_REQUESTS_PER_MINUTE k = k := by
        simp only [API_WRITE_REQUESTS_PER_MINUTE] at *
        omega
      rw [hmin]
      simp only
      rw [if_pos hk]
      have h119 : API_WRITE_REQUESTS_PER_MINUTE - (k + 1) = 119 - k := by
        simp only [API_WRITE_REQUESTS_PER_MINUTE]
        omega
      rw [h119]
  · unfold consumeResultAt
    rw [consumeApiWriteBudget_result]
    rw [hfresh 120, if_neg (by omega)]
    have hmin : min API_WRITE_REQUESTS_PER_MINUTE 120 = 120 := by
      simp [API_WRITE_REQUESTS_PER_MINUTE]
    rw [hmin]
    simp only
    rw [if_neg (by simp [API_WRITE_REQUESTS_PER_MINUTE])]
    rfl

/-- Witness for C4: on the empty table at time 0 the first call is accepted
with remaining 119, and the 121st call is rejected with a 60-second retry. -/
theorem consumeApiWriteBudget_fresh_window_witness :
    consumeResultAt "x" (fun _ => 0) (fun _ => none) 0 =
      { allowed := true, remaining := 119, retryAfterSeconds := none } ∧
    consumeResultAt "x" (fun _ => 0) (fun _ => none) 120 =
      { allowed := false, remaining := 0,
        retryAfterSeconds :=
          some (windowStartOf 0 + API_WINDOW_SECONDS - nowSecOf 0) } := by
  have h := consumeApiWriteBudget_fresh_window (fun _ => none) "x" 0 0 rfl (by decide)
  simpa using h

/-- Claim C5: starting from no record, each of the first 4 sequential
`recordFailedLogin` calls returns `locked = false`; the 5th call returns
`locked = true` with `retryAfterSeconds = 120` and stores
`locked_until = now + 120000` (two minutes in milliseconds); and after
`k < 5` recorded failures `checkLoginAttempt` reports `allowed = true` with
`remainingAttempts = 5 - k`. -/
theorem login_failure_sequence (t : LoginTable) (ip : String) (nows : Nat → Nat)
    (h : t (keyOf ip) = none) (k : Nat) (hk : k < LOGIN_MAX_ATTEMPTS) (now2 : Nat) :
    (∀ j, j ≤ 3 → recordResultAt ip nows t j =
      { locked := false, retryAfterSeconds := none }) ∧
    recordResultAt ip nows t 4 =
      { locked := true, retryAfterSeconds := some 120 } ∧
    recordIter ip nows t 5 (keyOf ip) =
      some { attempts := 5, locked_until := some (nows 4 + 120000),
             updated_at := nows 4 } ∧
    (checkLoginAttempt (recordIter ip nows t k) ip now2).1 =
      { allowed := true, remainingAttempts := LOGIN_MAX_ATTEMPTS - k,
        retryAfterSeconds := none } := by
  have hup4 : upsertRow (recordIter ip nows t 4) ip (nows 4) =
      { attempts := 5, locked_until := none, updated_at := nows 4 } := by
    unfold upsertRow
    rw [recordIter_fresh ip nows t h 4 (by omega), if_neg (by omega)]
  refine ⟨fun j hj => recordResultAt_fresh ip nows t h j hj, ?_, ?_, ?_⟩
  · unfold recordResultAt
    rw [recordFailedLogin_result, hup4, if_pos (by simp [LOGIN_MAX_ATTEMPTS])]
    decide
  · show (recordFailedLogin (recordIter ip nows t 4) ip (nows 4)).2 (keyOf ip) = _
    rw [recordFailedLogin_lookup, hup4, if_pos (by simp [LOGIN_MAX_ATTEMPTS])]
    simp [LOGIN_LOCKOUT_MINUTES]
  · by_cases hz : k = 0
    · subst hz
      have h0 : recordIter ip nows t 0 (keyOf ip) = none := h
      rw [checkLoginAttempt_no_record _ _ now2 h0]
      simp
    · have hrow := recordIter_fresh ip nows t h k
        (by simp only [LOGIN_MAX_ATTEMPTS] at hk; omega)
      rw [if_neg hz] at hrow
      rw [checkLoginAttempt_no_lock _ _ now2 _ hrow rfl]

/-- Witness for C5: concrete run from the empty table with all calls at
time 0. -/
theorem login_failure_sequence_witness :
    (∀ j, j ≤ 3 → recordResultAt "1.2.3.4" (fun _ => 0) (fun _ => none) j =
      { locked := false, retryAfterSeconds := none }) ∧
    recordResultAt "1.2.3.4" (fun _ => 0) (fun _ => none) 4 =
      { locked := true, retryAfterSeconds := some 120 } ∧
    recordIter "1.2.3.4" (fun _ => 0) (fun _ => none) 5 (keyOf "1.2.3.4") =
      some { attempts := 5, locked_until := some 120000, updated_at := 0 } ∧
    (checkLoginAttempt (recordIter "1.2.3.4" (fun _ => 0) (fun _ => none) 2)
        "1.2.3.4" 7).1 =
      { allowed := true, remainingAttempts := LOGIN_MAX_ATTEMPTS - 2,
        retryAfterSeconds := none } := by
  have h := login_failure_sequence (fun _ => none) "1.2.3.4" (fun _ => 0) rfl 2
    (by decide) 7
  simpa using h

/-- Claim C6: on a record carrying a (truthy) lock whose `locked_until` has
elapsed, `checkLoginAttempt` deletes the record and reports `allowed = true`
with the full budget of `LOGIN_MAX_ATTEMPTS = 5` attempts; no other key is
touched (the model has no background sweep — this read is the only expiry
mechanism). -/
theorem checkLoginAttempt_lazy_reset (t : LoginTable) (ip : String) (now : Nat)
    (row : LoginRow) (lu : Nat) (h : t (keyOf ip) = some row)
    (hlu : row.locked_until = some lu) (h0 : lu ≠ 0) (hexp : lu ≤ now) :
    (checkLoginAttempt t ip now).1 =
      { allowed := true, remainingAttempts := LOGIN_MAX_ATTEMPTS,
        retryAfterSeconds := none } ∧
    (checkLoginAttempt t ip now).2 (keyOf ip) = none ∧
    (∀ k, k ≠ keyOf ip → (checkLoginAttempt t ip now).2 k = t k) := by
  rw [checkLoginAttempt_expired_lock t ip now row lu h hlu h0 hexp]
  exact ⟨rfl, by simp, fun k hk => by simp [hk]⟩

/-- Witness for C6: concrete expired lock at time 2000. -/
theorem checkLoginAttempt_lazy_reset_witness :
    (checkLoginAttempt
        (fun k => if k = "1.2.3.4" then
          some { attempts := 5, locked_until := some 1000, updated_at := 0 }
        else none) "1.2.3.4" 2000).1 =
      { allowed := true, remainingAttempts := LOGIN_MAX_ATTEMPTS,
        retryAfterSeconds := none } :=
  (checkLoginAttempt_lazy_reset
    (fun k => if k = "1.2.3.4" then
      some { attempts := 5, locked_until := some 1000, updated_at := 0 }
    else none) "1.2.3.4" 2000
    { attempts := 5, locked_until := some 1000, updated_at := 0 } 1000
    (by decide) rfl (by decide) (by decide)).1

/-- Claim C7: on a record carrying an active (truthy) lock,
`checkLoginAttempt` reports `allowed = false`, `remainingAttempts = 0` and
`retryAfterSeconds = (lockedUntil - now + 999) / 1000`, which is exactly
`ceil((lockedUntil - now)/1000)` (second conjunct: the ceiling
characterization); and for a lock set by `recordFailedLogin` at some time
`now0 ≤ now` the value satisfies `0 < retryAfterSeconds ≤ 120`. -/
theorem checkLoginAttempt_active_lock_result (t : LoginTable) (ip : String)
    (now : Nat) (row : LoginRow) (lu : Nat) (h : t (keyOf ip) = some row)
    (hlu : row.locked_until = some lu) (h0 : lu ≠ 0) (hact : now < lu) :
    (checkLoginAttempt t ip now).1 =
      { allowed := false, remainingAttempts := 0,
        retryAfterSeconds := some ((lu - now + 999) / 1000) } ∧
    (1000 * ((lu - now + 999) / 1000 - 1) < lu - now ∧
      lu - now ≤ 1000 * ((lu - now + 999) / 1000)) ∧
    (∀ now0, lu = now0 + LOGIN_LOCKOUT_MINUTES * 60 * 1000 → now0 ≤ now →
      0 < (lu - now + 999) / 1000 ∧
      (lu - now + 999) / 1000 ≤ LOGIN_LOCKOUT_MINUTES * 60) := by
  refine ⟨?_, by omega, ?_⟩
  · rw [checkLoginAttempt_active_lock t ip now row lu h hlu h0 hact]
  · intro now0 hl hn
    subst hl
    simp only [LOGIN_LOCKOUT_MINUTES] at *
    omega

/-- Witness for C7: concrete active lock checked one second after it was
set at time 1000, with the bounds instantiated. -/
theorem checkLoginAttempt_active_lock_result_witness :
    (checkLoginAttempt
        (fun k => if k = "1.2.3.4" then
          some { attempts := 5, locked_until := some 121000, updated_at := 1000 }
        else none) "1.2.3.4" 2000).1 =
      { allowed := false, remainingAttempts := 0,
        retryAfterSeconds := some ((121000 - 2000 + 999) / 1000) } ∧
    (0 < (121000 - 2000 + 999) / 1000 ∧
      (121000 - 2000 + 999) / 1000 ≤ LOGIN_LOCKOUT_MINUTES * 60) := by
  have h := checkLoginAttempt_active_lock_result
    (fun k => if k = "1.2.3.4" then
      some { attempts := 5, locked_until := some 121000, updated_at := 1000 }
    else none) "1.2.3.4" 2000
    { attempts := 5, locked_until := some 121000, updated_at := 1000 } 121000
    (by decide) rfl (by decide) (by decide)
  exact ⟨h.1, h.2.2 1000 (by decide) (by decide)⟩

/-- Claim C8: `clearLoginAttempts` unconditionally deletes the record, so
for every prior state a subsequent `checkLoginAttempt` reports
`allowed = true` with the full budget of `LOGIN_MAX_ATTEMPTS = 5`. -/
theorem clear_then_check_full_budget (t : LoginTable) (ip : String) (now : Nat) :
    (checkLoginAttempt (clearLoginAttempts t ip) ip now).1 =
      { allowed := true, remainingAttempts := LOGIN_MAX_ATTEMPTS,
        retryAfterSeconds := none } ∧
    clearLoginAttempts t ip (keyOf ip) = none := by
  have hclear : clearLoginAttempts t ip (keyOf ip) = none := by
    unfold clearLoginAttempts
    simp
  exact ⟨by rw [checkLoginAttempt_no_record _ _ now hclear], hclear⟩

/-- Counterexample for C3: on a record whose lock expired (`locked_until =
1000 ≤ now = 2000`), `recordFailedLogin` does NOT delete the record or treat
the call as a first failure on a fresh record: it increments the stale
attempts from 5 to 6 and immediately re-locks, unlike a first failure on a
fresh table which returns `locked = false`. -/
theorem recordFailedLogin_expired_lock_cex :
    (recordFailedLogin
        (fun k => if k = "1.2.3.4" then
          some { attempts := 5, locked_until := some 1000, updated_at := 0 }
        else none) "1.2.3.4" 2000).1 =
      { locked := true, retryAfterSeconds := some 120 } ∧
    (recordFailedLogin
        (fun k => if k = "1.2.3.4" then
          some { attempts := 5, locked_until := some 1000, updated_at := 0 }
        else none) "1.2.3.4" 2000).2 "1.2.3.4" =
      some { attempts := 6, locked_until := some 122000, updated_at := 2000 } ∧
    (recordFailedLogin
        (fun k => if k = "1.2.3.4" then
          some { attempts := 5, locked_until := some 1000, updated_at := 0 }
        else none) "1.2.3.4" 2000).2 "1.2.3.4" ≠ none ∧
    (recordFailedLogin (fun _ => none) "1.2.3.4" 2000).1 =
      { locked := false, retryAfterSeconds := none } := by
  decide

/-- Claim C3 (amended): only `checkLoginAttempt` performs the lazy reset —
on a record with a truthy expired lock it deletes the record and reports
the open state; `recordFailedLogin` after lock expiry does not reset: it
increments the stale attempts count (keeping the old count and, below the
threshold, the old lock value), and when the incremented count reaches the
threshold it immediately re-locks. -/
theorem expired_lock_transition_amended (t : LoginTable) (ip : String)
    (now : Nat) (row : LoginRow) (lu : Nat) (h : t (keyOf ip) = some row)
    (hlu : row.locked_until = some lu) (h0 : lu ≠ 0) (hexp : lu ≤ now) :
    (checkLoginAttempt t ip now).1 =
      { allowed := true, remainingAttempts := LOGIN_MAX_ATTEMPTS,
        retryAfterSeconds := none } ∧
    (checkLoginAttempt t ip now).2 (keyOf ip) = none ∧
    (recordFailedLogin t ip now).2 (keyOf ip) =
      some (if LOGIN_MAX_ATTEMPTS ≤ row.attempts + 1 then
        { attempts := row.attempts + 1,
          locked_until := some (now + LOGIN_LOCKOUT_MINUTES * 60 * 1000),
          updated_at := now }
      else
        ({ attempts := row.attempts + 1, locked_until := some lu,
           updated_at := now } : LoginRow)) ∧
    (recordFailedLogin t ip now).1 =
      (if LOGIN_MAX_ATTEMPTS ≤ row.attempts + 1 then
        { locked := true, retryAfterSeconds := some (LOGIN_LOCKOUT_MINUTES * 60) }
      else ({ locked := false, retryAfterSeconds := none } : RecordResult)) := by
  have hup : upsertRow t ip now =
      { attempts := row.attempts + 1, locked_until := some lu,
        updated_at := now } := by
    unfold upsertRow
    rw [h]
    dsimp only
    rw [hlu]
  rw [checkLoginAttempt_expired_lock t ip now row lu h hlu h0 hexp,
    recordFailedLogin_lookup, recordFailedLogin_result, hup]
  exact ⟨rfl, by simp, rfl, rfl⟩

/-- Witness for C3 (amended): concrete expired-lock record at attempts 5. -/
theorem expired_lock_transition_amended_witness :
    (recordFailedLogin
        (fun k => if k = "1.2.3.4" then
          some { attempts := 5, locked_until := some 1000, updated_at := 0 }
        else none) "1.2.3.4" 2000).2 (keyOf "1.2.3.4") =
      some (if LOGIN_MAX_ATTEMPTS ≤ 5 + 1 then
        { attempts := 5 + 1,
          locked_until := some (2000 + LOGIN_LOCKOUT_MINUTES * 60 * 1000),
          updated_at := 2000 }
      else
        ({ attempts := 5 + 1, locked_until := some 1000,
           updated_at := 2000 } : LoginRow)) :=
  (expired_lock_transition_amended
    (fun k => if k = "1.2.3.4" then
      some { attempts := 5, locked_until := some 1000, updated_at := 0 }
    else none) "1.2.3.4" 2000
    { attempts := 5, locked_until := some 1000, updated_at := 0 } 1000
    (by decide) rfl (by decide) (by decide)).2.2.1

/-- Counterexample for C9: with no client-IP header and an X-Forwarded-For
header that is present but empty, the code returns the sentinel "unknown",
not the trimmed first comma-separated entry of the header (which would be
the empty string): the empty header string is falsy in JavaScript. -/
theorem getClientIdentifier_empty_forwarded_cex :
    getClientIdentifier none (some "") = "unknown" ∧
    jsTrim (firstCommaField "") = "" ∧
    ("unknown" : String) ≠ jsTrim (firstCommaField "") := by
  decide

/-- Claim C9 (amended): `getClientIdentifier` returns the `CF-Connecting-IP`
header when present and non-empty; otherwise the trimmed first
comma-separated entry of `X-Forwarded-For` when that header is present and
non-empty; otherwise the sentinel "unknown" — including the three concrete
examples of the claim. -/
theorem getClientIdentifier_precedence (s f : String) :
    (s ≠ "" → ∀ xff, getClientIdentifier (some s) xff = s) ∧
    (f ≠ "" → ∀ cf, (cf = none ∨ cf = some "") →
      getClientIdentifier cf (some f) = jsTrim (firstCommaField f)) ∧
    (∀ cf xff, (cf = none ∨ cf = some "") → (xff = none ∨ xff = some "") →
      getClientIdentifier cf xff = "unknown") ∧
    getClientIdentifier (some "9.9.9.9") (some "1.1.1.1, 2.2.2.2") = "9.9.9.9" ∧
    getClientIdentifier none (some "1.1.1.1, 2.2.2.2") = "1.1.1.1" ∧
    getClientIdentifier none none = "unknown" := by
  refine ⟨?_, ?_, ?_, by decide, by decide, by decide⟩
  · intro hs xff
    unfold getClientIdentifier
    dsimp only
    rw [if_neg hs]
  · intro hf cf hcf
    rcases hcf with hcf | hcf <;> subst hcf <;>
      unfold getClientIdentifier <;> simp [hf]
  · intro cf xff hcf hxff
    rcases hcf with hcf | hcf <;> rcases hxff with hxff | hxff <;>
      subst hcf <;> subst hxff <;> decide

/-- Witness for C9 (amended): the non-empty client-IP header wins. -/
theorem getClientIdentifier_precedence_witness :
    getClientIdentifier (some "9.9.9.9") (some "1.1.1.1, 2.2.2.2") = "9.9.9.9" :=
  (getClientIdentifier_precedence "9.9.9.9" "1.1.1.1, 2.2.2.2").1 (by decide)
    (some "1.1.1.1, 2.2.2.2")

/-- Claim C10: the three login-guard operations normalize the identifier:
each behaves identically on `ip` and on its whitespace-trimmed form, and a
whitespace-only `ip` is keyed as the sentinel "unknown"; by contrast
`consumeApiWriteBudget` performs no normalization — its table update is
keyed by the identifier string verbatim. -/
theorem login_identifier_normalization (t : LoginTable) (a : ApiTable)
    (ip id : String) (now : Nat) :
    checkLoginAttempt t (jsTrim ip) now = checkLoginAttempt t ip now ∧
    recordFailedLogin t (jsTrim ip) now = recordFailedLogin t ip now ∧
    clearLoginAttempts t (jsTrim ip) = clearLoginAttempts t ip ∧
    (jsTrim ip = "" →
      checkLoginAttempt t ip now = checkLoginAttempt t "unknown" now ∧
      recordFailedLogin t ip now = recordFailedLogin t "unknown" now ∧
      clearLoginAttempts t ip = clearLoginAttempts t "unknown") ∧
    (consumeApiWriteBudget a id now).2 = (fun k =>
      if k = (id, windowStartOf now) then
        some (nextWindowCount (a (id, windowStartOf now)))
      else a k) := by
  refine ⟨checkLoginAttempt_key_congr t (jsTrim ip) ip now (keyOf_jsTrim ip),
    recordFailedLogin_key_congr t (jsTrim ip) ip now (keyOf_jsTrim ip),
    clearLoginAttempts_key_congr t (jsTrim ip) ip (keyOf_jsTrim ip),
    fun hblank => ?_,
    consumeApiWriteBudget_update a id now⟩
  have hkey : keyOf ip = keyOf "unknown" := by
    rw [keyOf_of_blank ip hblank]
    decide
  exact ⟨checkLoginAttempt_key_congr t ip "unknown" now hkey,
    recordFailedLogin_key_congr t ip "unknown" now hkey,
    clearLoginAttempts_key_congr t ip "unknown" hkey⟩

/-- Witness for C10: a whitespace-only ip is treated as "unknown". -/
theorem login_identifier_normalization_witness :
    checkLoginAttempt (fun _ => none) "  " 0 =
      checkLoginAttempt (fun _ => none) "unknown" 0 :=
  ((login_identifier_normalization (fun _ => none) (fun _ => none) "  " "x" 0
    ).2.2.2.1 (by decide)).1

end NodeWarden
